import Mathlib

/-!
Verification of the buems exeat-management backend.

The Python sources under `src/buems` are shallowly embedded: the record
store is a list of records, datetimes are integers (timestamps), SQL
queries become list filters/sorts, and HTTP failures become an explicit
error type.  Each definition mirrors one Python function and keeps its
name.
-/

/-- HTTP-level outcomes of a handler.  `serverError` stands for an
uncaught Python exception propagating out of the handler (HTTP 500);
the other constructors are the explicit `HTTPException`s raised in the
source. -/
inductive ApiError where
  | notFound (detail : String)
  | badRequest (detail : String)
  | unauthorized (detail : String)
  | forbidden (detail : String)
  | serverError (detail : String)
deriving Repr, DecidableEq

namespace ExeatRequestStatusEnum

/-- Embeds `ExeatRequestStatusEnum.PENDING = 1` (db/models.py). -/
def PENDING : Nat := 1

/-- Embeds `ExeatRequestStatusEnum.APPROVED = 2` (db/models.py). -/
def APPROVED : Nat := 2

/-- Embeds `ExeatRequestStatusEnum.DENIED = 3` (db/models.py). -/
def DENIED : Nat := 3

end ExeatRequestStatusEnum

/-- Embeds `ExeatRequest` row (db/models.py).  Datetimes are modelled as `Int`
timestamps; nullable columns as `Option`. -/
structure ExeatRequest where
  id : Nat
  student_id : Nat
  leave_start : Int
  leave_end : Int
  submission_time : Int
  reason : String
  status_id : Nat
  staff_id : Option Nat := none
  staff_review_time : Option Int := none
  staff_comment : Option String := none
deriving Repr, DecidableEq

/-- The three values of the `sort` query parameter
(`Literal["last_updated", "leave_start", "leave_end"]` in common.py). -/
inductive SortKey where
  | last_updated
  | leave_start
  | leave_end
deriving Repr, DecidableEq

/-- SQL truthiness of a stored (non-null) datetime cast to a number:
nonzero means true.  A real timestamp is never numerically zero here. -/
def sqlTruthy (t : Int) : Bool := t != 0

/-- Three-valued SQL `OR` over two nullable operands, as SQLite
evaluates `x OR y`: true if either operand is truthy, NULL if one is
NULL and the other is not truthy, false otherwise. -/
def sqlOr (a b : Option Int) : Option Bool :=
  match a, b with
  | some x, _ => if sqlTruthy x then some true else
      match b with
      | some y => some (sqlTruthy y)
      | none => none
  | none, some y => if sqlTruthy y then some true else none
  | none, none => none

/-- The sort expression the source builds for `sort = "last_updated"`:
`or_(ExeatRequest.staff_review_time, ExeatRequest.submission_time)`
(common.py line 98).  `sqlalchemy.or_` is the SQL boolean `OR`, so the
key is a three-valued boolean, not a timestamp. -/
def lastUpdatedKey (r : ExeatRequest) : Option Bool :=
  sqlOr r.staff_review_time (some r.submission_time)

/-- Rank of the three-valued key under SQL ordering
(NULL sorts before false sorts before true). -/
def keyRank : Option Bool → Nat
  | none => 0
  | some false => 1
  | some true => 2

/-- The numeric sort key each `sort` value orders by (common.py
lines 92-106). -/
def exeatSortKey (sort : SortKey) (r : ExeatRequest) : Int :=
  match sort with
  | .last_updated => (keyRank (lastUpdatedKey r) : Int)
  | .leave_start => r.leave_start
  | .leave_end => r.leave_end

/-- Embeds `query.order_by(sort_func(...))` (common.py lines 92-106): sort the
rows by the selected key, ascending or descending. -/
def sortExeats (sort : SortKey) (ascending : Bool) (q : List ExeatRequest) :
    List ExeatRequest :=
  q.mergeSort (fun a b =>
    if ascending then decide (exeatSortKey sort a ≤ exeatSortKey sort b)
    else decide (exeatSortKey sort b ≤ exeatSortKey sort a))

/-- The `if status_id: query = query.where(ExeatRequest.status_id == status_id)`
step of `paginated_exeats_query` (common.py lines 87-89), with Python
truthiness of the optional enum value. -/
def statusFiltered (q : List ExeatRequest) (status_id : Option Nat) :
    List ExeatRequest :=
  match status_id with
  | some s => if s != 0 then q.filter (fun r => r.status_id == s) else q
  | none => q

/-- Embeds `PaginatedExeatsResponse` (common.py). -/
structure PaginatedExeatsResponse where
  total_items : Nat
  total_pages : Nat
  page_size : Nat
  current_page : Nat
  items : List ExeatRequest
deriving Repr, DecidableEq

/-- Embeds `paginated_exeats_query` (common.py lines 77-127): status filter,
sort, count, page arithmetic, then the offset/limit window.  The offset
the source computes is `(page - 1) * page_size` over Python ints, which
is negative when the clamped page is 0; a negative SQL OFFSET reads
from the start of the result set (`Int.toNat` clamps it to 0), and in
that case the result set is empty anyway. -/
def paginated_exeats_query (query : List ExeatRequest) (page : Nat)
    (page_size : Nat) (status_id : Option Nat) (sort : SortKey)
    (ascending : Bool) : PaginatedExeatsResponse :=
  let query := statusFiltered query status_id
  let query := sortExeats sort ascending query
  let total_items := query.length
  let total_pages := (total_items + page_size - 1) / page_size
  let page := min page total_pages
  let start : Int := ((page : Int) - 1) * (page_size : Int)
  let items := (query.drop start.toNat).take page_size
  { total_items := total_items, total_pages := total_pages,
    page_size := page_size, current_page := page, items := items }

/-- C3: for a filtered query with `page ≥ 1` and `page_size ∈ 1..100`, the
pagination engine reports `total_items` as the number of matching rows and
`total_pages = ⌈total_items / page_size⌉`, clamps the page to `total_pages`,
serves at most `page_size` rows from offset `(current_page - 1) * page_size`,
reports `total_pages = 0`, `current_page = 0` and no items when
`total_items = 0`, reports `total_pages = 3` for 45 items at page size 20, and
returns for any out-of-range page the same response as for the last page. -/
theorem c3_pagination_engine (l : List ExeatRequest) (page page_size : Nat)
    (st : Option Nat) (sort : SortKey) (asc : Bool)
    (hp : 1 ≤ page) (hs1 : 1 ≤ page_size) (hs2 : page_size ≤ 100) :
    (paginated_exeats_query l page page_size st sort asc).total_items
        = (sortExeats sort asc (statusFiltered l st)).length ∧
    (paginated_exeats_query l page page_size st sort asc).total_pages
        = ((paginated_exeats_query l page page_size st sort asc).total_items
            + page_size - 1) / page_size ∧
    (paginated_exeats_query l page page_size st sort asc).total_items
        ≤ (paginated_exeats_query l page page_size st sort asc).total_pages
            * page_size ∧
    ((paginated_exeats_query l page page_size st sort asc).total_pages = 0 ∨
      ((paginated_exeats_query l page page_size st sort asc).total_pages - 1)
          * page_size
        < (paginated_exeats_query l page page_size st sort asc).total_items) ∧
    (paginated_exeats_query l page page_size st sort asc).current_page
        = min page (paginated_exeats_query l page page_size st sort asc).total_pages ∧
    (paginated_exeats_query l page page_size st sort asc).items
        = ((sortExeats sort asc (statusFiltered l st)).drop
            ((((paginated_exeats_query l page page_size st sort asc).current_page
                : Int) - 1) * (page_size : Int)).toNat).take page_size ∧
    (paginated_exeats_query l page page_size st sort asc).items.length
        ≤ page_size ∧
    ((paginated_exeats_query l page page_size st sort asc).total_items = 0 →
      (paginated_exeats_query l page page_size st sort asc).total_pages = 0 ∧
      (paginated_exeats_query l page page_size st sort asc).current_page = 0 ∧
      (paginated_exeats_query l page page_size st sort asc).items = []) ∧
    ((paginated_exeats_query l page page_size st sort asc).total_items = 45 →
      page_size = 20 →
      (paginated_exeats_query l page page_size st sort asc).total_pages = 3) ∧
    (page ≥ (paginated_exeats_query l page page_size st sort asc).total_pages →
      paginated_exeats_query l page page_size st sort asc
        = paginated_exeats_query l
            (max (paginated_exeats_query l page page_size st sort asc).total_pages 1)
            page_size st sort asc) := by
  set q : List ExeatRequest := sortExeats sort asc (statusFiltered l st) with hq
  set n : Nat := q.length with hn
  set tp : Nat := (n + page_size - 1) / page_size with htp
  have hti : (paginated_exeats_query l page page_size st sort asc).total_items
      = n := rfl
  have htpp : (paginated_exeats_query l page page_size st sort asc).total_pages
      = tp := rfl
  have hcp : (paginated_exeats_query l page page_size st sort asc).current_page
      = min page tp := rfl
  have hit : (paginated_exeats_query l page page_size st sort asc).items
      = (q.drop ((((min page tp : Nat) : Int) - 1)
          * (page_size : Int)).toNat).take page_size := rfl
  have hdm : page_size * tp + (n + page_size - 1) % page_size
      = n + page_size - 1 := by
    rw [htp]
    exact Nat.div_add_mod _ _
  have hml : (n + page_size - 1) % page_size < page_size :=
    Nat.mod_lt _ (by omega)
  have hn0tp : n = 0 → tp = 0 := by
    intro h
    rw [htp, h]
    exact Nat.div_eq_of_lt (by omega)
  have hceil1 : n ≤ tp * page_size := by
    rw [Nat.mul_comm]
    omega
  have hceil2 : tp = 0 ∨ (tp - 1) * page_size < n := by
    rcases Nat.eq_zero_or_pos tp with h0 | h1
    · exact Or.inl h0
    · right
      rcases Nat.eq_zero_or_pos n with hz | hpos
      · exact absurd (hn0tp hz) (by omega)
      · have hsub : (tp - 1) * page_size = tp * page_size - 1 * page_size :=
          Nat.sub_mul tp 1 page_size
        rw [hsub, Nat.one_mul, Nat.mul_comm tp page_size]
        omega
  refine ⟨rfl, rfl, ?_, ?_, rfl, rfl, ?_, ?_, ?_, ?_⟩
  · rw [hti, htpp]
    exact hceil1
  · rw [hti, htpp]
    exact hceil2
  · rw [hit]
    exact List.length_take_le _ _
  · intro h0
    rw [hti] at h0
    have hlen : q.length = 0 := by
      rw [← hn]
      exact h0
    have hq0 : q = [] := List.length_eq_zero.mp hlen
    have htp0 : tp = 0 := hn0tp h0
    refine ⟨by rw [htpp, htp0], by rw [hcp, htp0]; omega, ?_⟩
    rw [hit, hq0]
    simp
  · intro h45 h20
    rw [hti] at h45
    rw [htpp, htp, h45, h20]
  · intro hge
    rw [htpp] at hge
    have hmin : min page tp = min (max tp 1) tp := by omega
    have hL : paginated_exeats_query l page page_size st sort asc =
        { total_items := n, total_pages := tp, page_size := page_size,
          current_page := min page tp,
          items := (q.drop ((((min page tp : Nat) : Int) - 1)
              * (page_size : Int)).toNat).take page_size } := rfl
    have hR : paginated_exeats_query l (max tp 1) page_size st sort asc =
        { total_items := n, total_pages := tp, page_size := page_size,
          current_page := min (max tp 1) tp,
          items := (q.drop ((((min (max tp 1) tp : Nat) : Int) - 1)
              * (page_size : Int)).toNat).take page_size } := rfl
    rw [htpp, hL, hR, hmin]

/-- Witness for C3 at a concrete input: one pending row, page 1, size 20. -/
theorem c3_pagination_engine_witness :
    (paginated_exeats_query
        [{ id := 1, student_id := 1, leave_start := 10, leave_end := 20,
           submission_time := 5, reason := "trip",
           status_id := ExeatRequestStatusEnum.PENDING }]
        1 20 none SortKey.last_updated false).total_items
      = (sortExeats SortKey.last_updated false
          (statusFiltered
            [{ id := 1, student_id := 1, leave_start := 10, leave_end := 20,
               submission_time := 5, reason := "trip",
               status_id := ExeatRequestStatusEnum.PENDING }] none)).length :=
  (c3_pagination_engine
    [{ id := 1, student_id := 1, leave_start := 10, leave_end := 20,
       submission_time := 5, reason := "trip",
       status_id := ExeatRequestStatusEnum.PENDING }]
    1 20 none SortKey.last_updated false
    (by decide) (by decide) (by decide)).1

/-- Embeds `crud.get_exeat_request` (db/crud.py lines 207-214): primary-key
lookup that raises `ExeatRequestNotFound` when the row is absent — it
never returns `None`. -/
def get_exeat_request (db : List ExeatRequest) (exeat_request_id : Nat) :
    Except String ExeatRequest :=
  match db.find? (fun r => r.id == exeat_request_id) with
  | some r => .ok r
  | none => .error ("ExeatRequestNotFound")

/-- Embeds `db.merge(exeat_request); db.commit()`: write the record back over
the stored row with the same primary key. -/
def merge_exeat (db : List ExeatRequest) (r : ExeatRequest) :
    List ExeatRequest :=
  db.map (fun x => if x.id == r.id then r else x)

/-- Embeds `approve_exeat_request` (routers/staff.py lines 120-154).  The
`if not exeat_request:` branch of the source cannot fire: the crud
helper raises (modelled as `Except.error`, propagating as a 500)
instead of returning `None`, and a model instance is always truthy. -/
def approve_exeat_request (db : List ExeatRequest) (staffId : Nat)
    (exeat_id : Nat) (comment : Option String) (now : Int) :
    Except ApiError (ExeatRequest × List ExeatRequest) :=
  match get_exeat_request db exeat_id with
  | .error e => .error (.serverError e)
  | .ok exeat_request =>
    if exeat_request.status_id != ExeatRequestStatusEnum.PENDING then
      .error (.badRequest ("Request is not pending"))
    else
      let updated := { exeat_request with
        status_id := ExeatRequestStatusEnum.APPROVED,
        staff_id := some staffId,
        staff_comment := comment,
        staff_review_time := some now }
      .ok (updated, merge_exeat db updated)

/-- Embeds `deny_exeat_request` (routers/staff.py lines 157-191); identical to
approval except that the new status is `DENIED`. -/
def deny_exeat_request (db : List ExeatRequest) (staffId : Nat)
    (exeat_id : Nat) (comment : Option String) (now : Int) :
    Except ApiError (ExeatRequest × List ExeatRequest) :=
  match get_exeat_request db exeat_id with
  | .error e => .error (.serverError e)
  | .ok exeat_request =>
    if exeat_request.status_id != ExeatRequestStatusEnum.PENDING then
      .error (.badRequest ("Request is not pending"))
    else
      let updated := { exeat_request with
        status_id := ExeatRequestStatusEnum.DENIED,
        staff_id := some staffId,
        staff_comment := comment,
        staff_review_time := some now }
      .ok (updated, merge_exeat db updated)

/-- Autoincrement primary key of the record store: one more than the
largest id in use. -/
def next_exeat_id (db : List ExeatRequest) : Nat :=
  (db.map (fun r => r.id)).foldr max 0 + 1

/-- Embeds `submit_exeat_request` (routers/student.py lines 125-151): insert a
new pending request owned by the calling student, submission time
`now`.  The leave window and possible overlaps with other requests are
not inspected. -/
def submit_exeat_request (db : List ExeatRequest) (student_id : Nat)
    (leave_start leave_end : Int) (reason : String) (now : Int) :
    ExeatRequest × List ExeatRequest :=
  let new_exeat_request : ExeatRequest :=
    { id := next_exeat_id db, student_id := student_id,
      leave_start := leave_start, leave_end := leave_end,
      reason := reason,
      status_id := ExeatRequestStatusEnum.PENDING,
      submission_time := now }
  (new_exeat_request, db ++ [new_exeat_request])

namespace SecurityRouter

/-- Embeds `get_exeats` (routers/security.py lines 34-83): the whole table fed
to the pagination engine with the status filter fixed to `APPROVED`. -/
def get_exeats (db : List ExeatRequest) (page page_size : Nat)
    (sort : SortKey) (ascending : Bool) : PaginatedExeatsResponse :=
  paginated_exeats_query db page page_size
    (some ExeatRequestStatusEnum.APPROVED) sort ascending

/-- Embeds `get_exeat` (routers/security.py lines 87-108): fetch by id with no
status restriction (the source comments that this is deliberately the
most permissive variant).  `.one()` raises `NoResultFound` on an empty
result (caught and turned into the 404) and `MultipleResultsFound` on
more than one row (uncaught). -/
def get_exeat (db : List ExeatRequest) (exeat_id : Nat) :
    Except ApiError ExeatRequest :=
  match db.filter (fun r => r.id == exeat_id) with
  | [] => .error (.notFound ("Exeat request not found"))
  | [r] => .ok r
  | _ => .error (.serverError ("MultipleResultsFound"))

end SecurityRouter

namespace StaffRouter

/-- The base filter of the staff listing (routers/staff.py lines 79-81):
`staff_id == caller.id OR staff_id IS NULL`. -/
def base_query (db : List ExeatRequest) (staff_id : Nat) :
    List ExeatRequest :=
  db.filter (fun r => r.staff_id == some staff_id || r.staff_id == none)

/-- Embeds `get_exeats` (routers/staff.py lines 31-91): base filter then the
shared pagination engine with the caller-supplied status filter. -/
def get_exeats (db : List ExeatRequest) (staff_id : Nat)
    (page page_size : Nat) (status : Option Nat) (sort : SortKey)
    (ascending : Bool) : PaginatedExeatsResponse :=
  paginated_exeats_query (base_query db staff_id) page page_size status
    sort ascending

end StaffRouter

/-- C1 (review of a missing id): the 404 branch of the source is dead code
because `crud.get_exeat_request` raises `ExeatRequestNotFound` rather than
returning `None`; the exception escapes the handler (HTTP 500), so a review
of an absent exeat id does not fail NotFound as the spec states. -/
theorem c1_review_missing_id_not_notfound :
    approve_exeat_request [] 7 1 none 0
        = .error (.serverError ("ExeatRequestNotFound")) ∧
    deny_exeat_request [] 7 1 none 0
        = .error (.serverError ("ExeatRequestNotFound")) ∧
    .error (.serverError ("ExeatRequestNotFound"))
        ≠ (Except.error (.notFound ("Exeat request not found")) :
            Except ApiError (ExeatRequest × List ExeatRequest)) := by
  refine ⟨rfl, rfl, by simp⟩

/-- C9: submission always succeeds and inserts a new record owned by the
student with status pending, submission time now, and the supplied window
and reason; the statement is unconditional in `leave_start` and
`leave_end` (no window-ordering validation) and in the rest of the store
(no overlap check against other pending requests). -/
theorem c9_submit_no_validation (db : List ExeatRequest) (sid : Nat)
    (ls le : Int) (reason : String) (now : Int) :
    (submit_exeat_request db sid ls le reason now).1.student_id = sid ∧
    (submit_exeat_request db sid ls le reason now).1.status_id
        = ExeatRequestStatusEnum.PENDING ∧
    (submit_exeat_request db sid ls le reason now).1.submission_time = now ∧
    (submit_exeat_request db sid ls le reason now).1.leave_start = ls ∧
    (submit_exeat_request db sid ls le reason now).1.leave_end = le ∧
    (submit_exeat_request db sid ls le reason now).1.reason = reason ∧
    (submit_exeat_request db sid ls le reason now).1.staff_id = none ∧
    (submit_exeat_request db sid ls le reason now).1.staff_review_time = none ∧
    (submit_exeat_request db sid ls le reason now).1.staff_comment = none ∧
    (submit_exeat_request db sid ls le reason now).2
        = db ++ [(submit_exeat_request db sid ls le reason now).1] :=
  ⟨rfl, rfl, rfl, rfl, rfl, rfl, rfl, rfl, rfl, rfl⟩

/-- C10: denial produces exactly the approval result with `DENIED` in
place of `APPROVED` (the staff id, review time and comment are set
identically, and the same record is written back), and the two
operations fail with the same error in the same situations. -/
theorem c10_deny_refines_approve (db : List ExeatRequest)
    (staffId exeat_id : Nat) (comment : Option String) (now : Int) :
    (∀ e, approve_exeat_request db staffId exeat_id comment now = .error e ↔
      deny_exeat_request db staffId exeat_id comment now = .error e) ∧
    (∀ r db2,
      approve_exeat_request db staffId exeat_id comment now = .ok (r, db2) →
      deny_exeat_request db staffId exeat_id comment now
        = .ok ({ r with status_id := ExeatRequestStatusEnum.DENIED },
            merge_exeat db { r with
              status_id := ExeatRequestStatusEnum.DENIED })) := by
  constructor
  · intro e
    cases hg : get_exeat_request db exeat_id with
    | error e0 =>
      simp [approve_exeat_request, deny_exeat_request, hg]
    | ok req =>
      by_cases hst : (req.status_id != ExeatRequestStatusEnum.PENDING) = true
      · simp [approve_exeat_request, deny_exeat_request, hg, hst]
      · simp [approve_exeat_request, deny_exeat_request, hg, hst]
  · intro r db2 h
    cases hg : get_exeat_request db exeat_id with
    | error e0 =>
      simp [approve_exeat_request, hg] at h
    | ok req =>
      by_cases hst : (req.status_id != ExeatRequestStatusEnum.PENDING) = true
      · simp [approve_exeat_request, hg, hst] at h
      · simp only [approve_exeat_request, hg] at h
        rw [if_neg hst] at h
        simp only [Except.ok.injEq, Prod.mk.injEq] at h
        obtain ⟨hr, hdb⟩ := h
        simp only [deny_exeat_request, hg]
        rw [if_neg hst]
        subst hr
        subst hdb
        rfl

/-- Witness for C10: a concrete pending request approved and denied by
staff 7 at time 5 with no comment. -/
theorem c10_deny_refines_approve_witness :
    deny_exeat_request
        [{ id := 1, student_id := 1, leave_start := 10, leave_end := 20,
           submission_time := 3, reason := "trip",
           status_id := ExeatRequestStatusEnum.PENDING }] 7 1 none 5
      = .ok
          ({ id := 1, student_id := 1, leave_start := 10, leave_end := 20,
             submission_time := 3, reason := "trip",
             status_id := ExeatRequestStatusEnum.DENIED,
             staff_id := some 7, staff_review_time := some 5,
             staff_comment := none },
           [{ id := 1, student_id := 1, leave_start := 10, leave_end := 20,
              submission_time := 3, reason := "trip",
              status_id := ExeatRequestStatusEnum.DENIED,
              staff_id := some 7, staff_review_time := some 5,
              staff_comment := none }]) := by
  have h := (c10_deny_refines_approve
    [{ id := 1, student_id := 1, leave_start := 10, leave_end := 20,
       submission_time := 3, reason := "trip",
       status_id := ExeatRequestStatusEnum.PENDING }] 7 1 none 5).2
    { id := 1, student_id := 1, leave_start := 10, leave_end := 20,
      submission_time := 3, reason := "trip",
      status_id := ExeatRequestStatusEnum.APPROVED,
      staff_id := some 7, staff_review_time := some 5,
      staff_comment := none }
    [{ id := 1, student_id := 1, leave_start := 10, leave_end := 20,
       submission_time := 3, reason := "trip",
       status_id := ExeatRequestStatusEnum.APPROVED,
       staff_id := some 7, staff_review_time := some 5,
       staff_comment := none }]
    rfl
  exact h

/-- A concrete pending request, reused across concrete instances. -/
def exPending : ExeatRequest :=
  { id := 1, student_id := 1, leave_start := 10, leave_end := 20,
    submission_time := 3, reason := "trip",
    status_id := ExeatRequestStatusEnum.PENDING }

/-- A concrete approved request, reused across concrete instances. -/
def exApproved : ExeatRequest :=
  { id := 2, student_id := 1, leave_start := 10, leave_end := 20,
    submission_time := 3, reason := "trip",
    status_id := ExeatRequestStatusEnum.APPROVED,
    staff_id := some 7, staff_review_time := some 5,
    staff_comment := none }

/-- Any row served by the pagination engine passed the status filter. -/
theorem mem_paginated_items (q : List ExeatRequest) (page ps : Nat)
    (st : Option Nat) (sort : SortKey) (asc : Bool) (r : ExeatRequest)
    (h : r ∈ (paginated_exeats_query q page ps st sort asc).items) :
    r ∈ statusFiltered q st := by
  have h' : r ∈ ((sortExeats sort asc (statusFiltered q st)).drop
      (((((min page
            (((sortExeats sort asc (statusFiltered q st)).length + ps - 1)
              / ps) : Nat) : Int) - 1) * (ps : Int)).toNat)).take ps := h
  have h1 := List.take_subset _ _ h'
  have h2 := List.drop_subset _ _ h1
  exact List.mem_mergeSort.mp h2

/-- With pairwise-distinct primary keys, filtering the store on the key
of a present row yields exactly that row. -/
theorem filter_key_unique (db : List ExeatRequest) (i : Nat)
    (hnd : (db.map (fun r => r.id)).Nodup) (r : ExeatRequest)
    (hr : r ∈ db) (hid : r.id = i) :
    db.filter (fun x => x.id == i) = [r] := by
  induction db with
  | nil => cases hr
  | cons a t ih =>
    rw [List.map_cons, List.nodup_cons] at hnd
    obtain ⟨ha, ht⟩ := hnd
    rcases List.mem_cons.mp hr with rfl | hmem
    · have hpa : ((fun x : ExeatRequest => x.id == i) r) = true := by
        simpa using hid
      rw [List.filter_cons_of_pos (p := fun x : ExeatRequest => x.id == i) hpa]
      have hnil : t.filter (fun x => x.id == i) = [] := by
        rw [List.filter_eq_nil_iff]
        intro x hx
        have hxm : x.id ∈ t.map (fun s => s.id) := List.mem_map_of_mem _ hx
        simp only [beq_iff_eq]
        intro hxe
        exact ha (by rw [hid, ← hxe]; exact hxm)
      rw [hnil]
    · have hna : ¬(((fun x : ExeatRequest => x.id == i) a) = true) := by
        simp only [beq_iff_eq]
        intro hae
        have hrm : r.id ∈ t.map (fun s => s.id) := List.mem_map_of_mem _ hmem
        rw [hid, ← hae] at hrm
        exact ha hrm
      rw [List.filter_cons_of_neg (p := fun x : ExeatRequest => x.id == i) hna]
      exact ih ht hmem

/-- C2 counterexample: the security single-item fetch returns a pending
request instead of failing NotFound — the source deliberately omits the
approved-only restriction there. -/
theorem c2_counterexample_security_fetch_pending :
    SecurityRouter.get_exeat [exPending] 1 = .ok exPending ∧
    exPending.status_id = ExeatRequestStatusEnum.PENDING :=
  ⟨rfl, rfl⟩

/-- C2 (amended): every request in the security listing is approved, but
the security single-item fetch is status-blind: with distinct ids it
returns exactly the stored request with the requested id, whatever its
status, and fails NotFound only when no such id exists. -/
theorem c2_security_visibility (db : List ExeatRequest)
    (page ps i : Nat) (sort : SortKey) (asc : Bool)
    (hnd : (db.map (fun r => r.id)).Nodup) :
    (∀ r ∈ (SecurityRouter.get_exeats db page ps sort asc).items,
        r.status_id = ExeatRequestStatusEnum.APPROVED) ∧
    (∀ r, SecurityRouter.get_exeat db i = .ok r ↔ (r ∈ db ∧ r.id = i)) := by
  constructor
  · intro r hr
    have h1 : r ∈ statusFiltered db (some ExeatRequestStatusEnum.APPROVED) :=
      mem_paginated_items db page ps _ sort asc r hr
    rw [statusFiltered] at h1
    simp only [ExeatRequestStatusEnum.APPROVED] at h1 ⊢
    norm_num at h1
    exact h1.2
  · intro r
    constructor
    · intro h
      rw [SecurityRouter.get_exeat.eq_def] at h
      cases hf : db.filter (fun x => x.id == i) with
      | nil => rw [hf] at h; exact absurd h (by simp)
      | cons a t =>
        cases t with
        | nil =>
          rw [hf] at h
          have har : a = r := by
            simpa using h
          subst har
          have hmem : a ∈ db.filter (fun x => x.id == i) := by
            rw [hf]; exact List.mem_cons_self a []
          have := List.mem_filter.mp hmem
          exact ⟨this.1, by simpa using this.2⟩
        | cons b t2 => rw [hf] at h; exact absurd h (by simp)
    · intro ⟨hmem, hid⟩
      have hf := filter_key_unique db i hnd r hmem hid
      rw [SecurityRouter.get_exeat.eq_def, hf]

/-- Witness for C2 at a concrete input: the store holds one approved
request with id 2, and the security fetch of id 2 returns it. -/
theorem c2_security_visibility_witness :
    SecurityRouter.get_exeat [exApproved] 2 = .ok exApproved ↔
      (exApproved ∈ [exApproved] ∧ exApproved.id = 2) :=
  (c2_security_visibility [exApproved] 1 20 2 SortKey.last_updated false
    (by decide)).2 exApproved

/-- C8: the staff listing selects exactly the requests whose `staff_id`
is the caller or null, with the optional status filter applied on top;
hence every row it serves satisfies the ownership filter, every
unassigned request is selected for every staff caller, and a request
reviewed by a different staff member is never selected. -/
theorem c8_staff_listing (db : List ExeatRequest) (aId : Nat)
    (stOpt : Option Nat) :
    (∀ r, r ∈ statusFiltered (StaffRouter.base_query db aId) stOpt ↔
      (r ∈ db ∧ (r.staff_id = some aId ∨ r.staff_id = none) ∧
        (∀ s, stOpt = some s → s ≠ 0 → r.status_id = s))) ∧
    (∀ page ps sort asc r,
      r ∈ (StaffRouter.get_exeats db aId page ps stOpt sort asc).items →
        r ∈ db ∧ (r.staff_id = some aId ∨ r.staff_id = none)) ∧
    (∀ r, r ∈ db → r.staff_id = none →
        r ∈ StaffRouter.base_query db aId) ∧
    (∀ b r, r ∈ db → r.staff_id = some b → b ≠ aId →
        r ∉ statusFiltered (StaffRouter.base_query db aId) stOpt) := by
  have hbase : ∀ r, r ∈ StaffRouter.base_query db aId ↔
      (r ∈ db ∧ (r.staff_id = some aId ∨ r.staff_id = none)) := by
    intro r
    simp [StaffRouter.base_query, List.mem_filter]
  have hstat : ∀ r,
      r ∈ statusFiltered (StaffRouter.base_query db aId) stOpt ↔
      (r ∈ StaffRouter.base_query db aId ∧
        (∀ s, stOpt = some s → s ≠ 0 → r.status_id = s)) := by
    intro r
    cases stOpt with
    | none => simp [statusFiltered]
    | some s =>
      by_cases hs : s = 0
      · subst hs
        simp [statusFiltered]
      · simp [statusFiltered, hs, List.mem_filter, beq_iff_eq]
  refine ⟨?_, ?_, ?_, ?_⟩
  · intro r
    rw [hstat r, hbase r, and_assoc]
  · intro page ps sort asc r hmem
    have h1 := mem_paginated_items _ page ps stOpt sort asc r hmem
    have h2 := (hstat r).mp h1
    exact (hbase r).mp h2.1
  · intro r hr hnone
    exact (hbase r).mpr ⟨hr, Or.inr hnone⟩
  · intro b r hr hb hne hmem
    have h2 := ((hbase r).mp ((hstat r).mp hmem).1).2
    rcases h2 with h | h
    · rw [hb] at h
      exact hne (Option.some_injective _ h)
    · rw [hb] at h
      cases h

/-- Witness for C8: the concrete approved request reviewed by staff 7 is
selected in the listing filter of staff 7. -/
theorem c8_staff_listing_witness :
    exApproved ∈ statusFiltered (StaffRouter.base_query [exApproved] 7) none ↔
      (exApproved ∈ [exApproved] ∧
        (exApproved.staff_id = some 7 ∨ exApproved.staff_id = none) ∧
        (∀ s, (none : Option Nat) = some s → s ≠ 0 →
          exApproved.status_id = s)) :=
  (c8_staff_listing [exApproved] 7 none).1 exApproved

/-- Modelled from the spec: the sort key the spec prescribes for
`last_updated` — `staff_review_time` when present, else
`submission_time` (coalesce). -/
def spec_last_updated_key (r : ExeatRequest) : Int :=
  match r.staff_review_time with
  | some t => t
  | none => r.submission_time

/-- A concrete unreviewed request submitted later than `exApproved` was
reviewed. -/
def exUnreviewed : ExeatRequest :=
  { id := 3, student_id := 1, leave_start := 10, leave_end := 20,
    submission_time := 10, reason := "trip",
    status_id := ExeatRequestStatusEnum.PENDING }

/-- C4 (sort key): the source orders `last_updated` by the SQL boolean
`staff_review_time OR submission_time`, which evaluates to the same
value (true) for a reviewed request and for an unreviewed one, so their
relative position is not determined by the coalesced timestamps — which
differ (review time 5 versus submission time 10) under the key the spec
describes. -/
theorem c4_last_updated_key_constant :
    exeatSortKey SortKey.last_updated exApproved
        = exeatSortKey SortKey.last_updated exUnreviewed ∧
    lastUpdatedKey exApproved = some true ∧
    lastUpdatedKey exUnreviewed = some true ∧
    spec_last_updated_key exApproved = 5 ∧
    spec_last_updated_key exUnreviewed = 10 :=
  ⟨rfl, rfl, rfl, rfl, rfl⟩

/-- Embeds `RevokedToken` ledger row (db/models.py): keyed by the
signature segment, storing the original expiry. -/
structure RevokedToken where
  sig : String
  exp : Int
deriving Repr, DecidableEq

/-- Embeds `cleanup_expired_revoked_tokens` (revocation.py lines 31-41).  The
source gates the delete on `tokens.one_or_none()`; `Query.one_or_none`
returns the single matching row, `None` when no row matches, and raises
`MultipleResultsFound` when more than one ledger row has expired, in
which case nothing is deleted. -/
def cleanup_expired_revoked_tokens (ledger : List RevokedToken)
    (now : Int) : Except String (List RevokedToken) :=
  match ledger.filter (fun t => decide (t.exp < now)) with
  | [] => .ok ledger
  | [_] => .ok (ledger.filter (fun t => !(decide (t.exp < now))))
  | _ => .error ("MultipleResultsFound")

/-- C6 (sweep): with two expired ledger rows one run of the sweep raises
`MultipleResultsFound` and deletes nothing, while with a single expired
row it does delete it — so a run does not delete all expired rows in
general. -/
theorem c6_sweep_multiple_expired_raises :
    cleanup_expired_revoked_tokens
        [{ sig := "a", exp := 1 }, { sig := "b", exp := 2 }] 3
      = .error ("MultipleResultsFound") ∧
    cleanup_expired_revoked_tokens [{ sig := "a", exp := 1 }] 3
      = .ok [] ∧
    cleanup_expired_revoked_tokens
        [{ sig := "a", exp := 5 }, { sig := "b", exp := 7 }] 3
      = .ok [{ sig := "a", exp := 5 }, { sig := "b", exp := 7 }] :=
  ⟨rfl, rfl, rfl⟩

/-- Embeds `User` row (db/models.py).  The password hash is opaque bytes,
modelled as a string; `time_joined` is a timestamp. -/
structure User where
  id : Nat
  first_name : String
  last_name : String
  email : String
  phone_number : String
  hashed_password : String
  is_active : Bool := true
  is_verified : Bool := false
  user_type_id : Nat
  profile_picture_id : Option String := none
  time_joined : Int
deriving Repr, DecidableEq

/-- The decoded payload of a bearer token: optional subject email plus
issue and expiry timestamps. -/
structure TokenPayload where
  sub : Option String
  iat : Int
  exp : Int
deriving Repr, DecidableEq

/-- A bearer token that already passed `decoded_token` (signature
verified, not expired): its payload together with its signature
segment, the part after the last dot that keys the revocation ledger. -/
structure Jwt where
  payload : TokenPayload
  sig : String
deriving Repr, DecidableEq

/-- Embeds `is_jwt_revoked` (revocation.py lines 23-28): primary-key lookup of
the signature segment of the token in the ledger. -/
def is_jwt_revoked (ledger : List RevokedToken) (token : Jwt) : Bool :=
  (ledger.find? (fun e => e.sig == token.sig)).isSome

/-- Embeds `revoke_jwt` (revocation.py lines 12-20): `db.merge` upserts the
ledger row keyed by the signature segment of the token. -/
def revoke_jwt (ledger : List RevokedToken) (token : Jwt) (exp : Int) :
    List RevokedToken :=
  if ledger.any (fun e => e.sig == token.sig) then
    ledger.map (fun e =>
      if e.sig == token.sig then { sig := token.sig, exp := exp } else e)
  else ledger ++ [{ sig := token.sig, exp := exp }]

/-- After replacing the matching ledger rows, the signature is still
found. -/
theorem find?_isSome_map_upsert (l : List RevokedToken) (s : String)
    (e2 : Int) (h : l.any (fun e => e.sig == s) = true) :
    (List.find? (fun e => e.sig == s)
      (l.map (fun e =>
        if e.sig == s then { sig := s, exp := e2 } else e))).isSome
      = true := by
  induction l with
  | nil => simp at h
  | cons a l ih =>
    simp only [List.map_cons]
    by_cases ha : (a.sig == s) = true
    · rw [if_pos ha]
      rw [List.find?_cons_of_pos _ (by simp)]
      rfl
    · rw [if_neg ha]
      rw [List.find?_cons_of_neg (p := fun e : RevokedToken => e.sig == s) _ ha]
      apply ih
      simp only [List.any_cons, ha, Bool.false_or] at h
      exact h

/-- Revocation immediately marks the token revoked. -/
theorem is_jwt_revoked_revoke (ledger : List RevokedToken) (t : Jwt)
    (e2 : Int) : is_jwt_revoked (revoke_jwt ledger t e2) t = true := by
  unfold is_jwt_revoked revoke_jwt
  by_cases hany : ledger.any (fun e => e.sig == t.sig) = true
  · rw [if_pos hany]
    exact find?_isSome_map_upsert ledger t.sig e2 hany
  · rw [if_neg hany]
    have hfn : ledger.find? (fun e => e.sig == t.sig) = none := by
      rw [List.find?_eq_none]
      intro x hx hxe
      exact hany (List.any_eq_true.mpr ⟨x, hx, hxe⟩)
    rw [List.find?_append, hfn]
    simp

/-- Embeds `get_current_user` (routers/auth.py lines 218-235): reject a
revoked token, extract the subject email, look the user up by email,
and reject a token issued before the join time of the account; every failure
is the same 401. -/
def get_current_user (ledger : List RevokedToken) (users : List User)
    (token : Jwt) : Except ApiError User :=
  if is_jwt_revoked ledger token then
    .error (.unauthorized ("Not authenticated."))
  else
    let iat := token.payload.iat
    match token.payload.sub with
    | none => .error (.unauthorized ("Not authenticated."))
    | some email =>
      match users.find? (fun u => u.email == email) with
      | none => .error (.unauthorized ("Not authenticated."))
      | some user =>
        if user.time_joined > iat then
          .error (.unauthorized ("Not authenticated."))
        else .ok user

/-- C5: identity resolution of a decoded, unexpired token fails with the
unauthenticated error exactly when the signature is in the revocation
ledger, or the payload has no subject, or no user bears the subject
email, or the matching user joined after the token was issued; otherwise
it returns the matching user.  In particular the token is rejected
immediately after its own revocation. -/
theorem c5_resolve_identity (ledger : List RevokedToken)
    (users : List User) (t : Jwt) :
    (get_current_user ledger users t
        = .error (.unauthorized ("Not authenticated.")) ↔
      (is_jwt_revoked ledger t = true ∨ t.payload.sub = none ∨
        (∃ e, t.payload.sub = some e ∧
          users.find? (fun u => u.email == e) = none) ∨
        (∃ e u, t.payload.sub = some e ∧
          users.find? (fun u => u.email == e) = some u ∧
          t.payload.iat < u.time_joined))) ∧
    (∀ u, get_current_user ledger users t = .ok u ↔
      (is_jwt_revoked ledger t = false ∧
        ∃ e, t.payload.sub = some e ∧
          users.find? (fun v => v.email == e) = some u ∧
          u.time_joined ≤ t.payload.iat)) ∧
    (∀ e2, get_current_user (revoke_jwt ledger t e2) users t
        = .error (.unauthorized ("Not authenticated."))) := by
  refine ⟨?_, ?_, ?_⟩
  · by_cases hrev : is_jwt_revoked ledger t = true
    · exact iff_of_true (by simp [get_current_user, hrev]) (Or.inl hrev)
    · cases hsub : t.payload.sub with
      | none =>
        exact iff_of_true (by simp [get_current_user, hrev, hsub])
          (Or.inr (Or.inl rfl))
      | some e =>
        cases hfind : users.find? (fun u => u.email == e) with
        | none =>
          exact iff_of_true (by simp [get_current_user, hrev, hsub, hfind])
            (Or.inr (Or.inr (Or.inl ⟨e, rfl, hfind⟩)))
        | some u1 =>
          by_cases htime : u1.time_joined > t.payload.iat
          · exact iff_of_true
              (by simp [get_current_user, hrev, hsub, hfind, htime])
              (Or.inr (Or.inr (Or.inr ⟨e, u1, rfl, hfind, htime⟩)))
          · have hL : get_current_user ledger users t = .ok u1 := by
              simp [get_current_user, hrev, hsub, hfind, htime]
            refine iff_of_false (by rw [hL]; simp) ?_
            intro h
            rcases h with h | h | ⟨e1, he1, hf1⟩ | ⟨e1, u2, he1, hf1, ht1⟩
            · exact hrev h
            · cases h
            · rw [Option.some.injEq] at he1
              subst he1
              rw [hfind] at hf1
              cases hf1
            · rw [Option.some.injEq] at he1
              subst he1
              rw [hfind, Option.some.injEq] at hf1
              subst hf1
              exact htime ht1
  · intro u
    by_cases hrev : is_jwt_revoked ledger t = true
    · refine iff_of_false
        (by simp [get_current_user, hrev]) ?_
      intro ⟨h1, _⟩
      rw [hrev] at h1
      cases h1
    · have hrev2 : is_jwt_revoked ledger t = false := by
        revert hrev
        cases is_jwt_revoked ledger t <;> simp
      cases hsub : t.payload.sub with
      | none =>
        refine iff_of_false (by simp [get_current_user, hrev, hsub]) ?_
        intro ⟨_, e, he, _⟩
        cases he
      | some e =>
        cases hfind : users.find? (fun v => v.email == e) with
        | none =>
          refine iff_of_false
            (by simp [get_current_user, hrev, hsub, hfind]) ?_
          intro ⟨_, e1, he1, hf1, _⟩
          rw [Option.some.injEq] at he1
          subst he1
          rw [hfind] at hf1
          cases hf1
        | some u1 =>
          by_cases htime : u1.time_joined > t.payload.iat
          · refine iff_of_false
              (by simp [get_current_user, hrev, hsub, hfind, htime]) ?_
            intro ⟨_, e1, he1, hf1, hle⟩
            rw [Option.some.injEq] at he1
            subst he1
            rw [hfind, Option.some.injEq] at hf1
            subst hf1
            omega
          · have hL : get_current_user ledger users t = .ok u1 := by
              simp [get_current_user, hrev, hsub, hfind, htime]
            rw [hL]
            constructor
            · intro h
              rw [Except.ok.injEq] at h
              subst h
              exact ⟨hrev2, e, rfl, hfind, by omega⟩
            · intro ⟨_, e1, he1, hf1, _⟩
              rw [Option.some.injEq] at he1
              subst he1
              rw [hfind, Option.some.injEq] at hf1
              rw [hf1]
  · intro e2
    have hrev := is_jwt_revoked_revoke ledger t e2
    simp [get_current_user, hrev]

/-- A concrete user for identity-resolution instances. -/
def uEx : User :=
  { id := 1, first_name := "Ada", last_name := "Obi",
    email := "ada@example.edu", phone_number := "1",
    hashed_password := "pw", user_type_id := 2, time_joined := 0 }

/-- A concrete decoded token for `uEx`, issued at time 5. -/
def tEx : Jwt :=
  { payload := { sub := some ("ada@example.edu"), iat := 5, exp := 1805 },
    sig := "sigA" }

/-- Witness for C5: on an empty ledger, `tEx` resolves to `uEx`. -/
theorem c5_resolve_identity_witness :
    get_current_user [] [uEx] tEx = .ok uEx :=
  ((c5_resolve_identity [] [uEx] tEx).2.1 uEx).mpr
    ⟨rfl, "ada@example.edu", rfl, rfl, by decide⟩

/-- Embeds `UserTypeEnum` (db/models.py): ADMIN = 1, STUDENT = 2, STAFF = 3,
SECURITY_OPERATIVE = 4. -/
inductive UserTypeEnum where
  | ADMIN
  | STUDENT
  | STAFF
  | SECURITY_OPERATIVE
deriving Repr, DecidableEq

/-- The numeric value of each enum member. -/
def UserTypeEnum.value : UserTypeEnum → Nat
  | .ADMIN => 1
  | .STUDENT => 2
  | .STAFF => 3
  | .SECURITY_OPERATIVE => 4

/-- Embeds `UserTypeEnum.from_safe_name`: reverse lookup from the lowercase
member name. -/
def UserTypeEnum.from_safe_name : String → Option UserTypeEnum
  | "admin" => some .ADMIN
  | "student" => some .STUDENT
  | "staff" => some .STAFF
  | "security_operative" => some .SECURITY_OPERATIVE
  | _ => none

/-- Embeds `Guardian` row (db/models.py). -/
structure Guardian where
  id : Nat
  name : String
  phone_number : String
deriving Repr, DecidableEq

/-- Embeds `Student` profile row (db/models.py). -/
structure Student where
  id : Nat
  user_id : Nat
  matriculation_number : String
  course_of_study : String
  guardian_id : Nat
  guardian_relationship : String
deriving Repr, DecidableEq

/-- Embeds `Staff` profile row (db/models.py). -/
structure Staff where
  id : Nat
  user_id : Nat
  staff_id : String
  designation : String
deriving Repr, DecidableEq

/-- Embeds `SecurityOperative` profile row (db/models.py). -/
structure SecurityOperative where
  id : Nat
  user_id : Nat
  security_id : String
  designation : String
deriving Repr, DecidableEq

/-- The account-related tables of the record store. -/
structure DBState where
  users : List User := []
  guardians : List Guardian := []
  students : List Student := []
  staffs : List Staff := []
  security_operatives : List SecurityOperative := []
deriving Repr, DecidableEq

/-- Embeds `UserCreate` signup payload (routers/auth.py lines 90-169): the
role-specific fields are optional at the schema level; a field present
in `model_fields_set` is modelled as `some`. -/
structure UserCreate where
  user_type : String
  email : String
  password : String
  first_name : String
  last_name : String
  phone_number : String
  is_active : Bool := true
  is_verified : Bool := false
  matriculation_number : Option String := none
  course_of_study : Option String := none
  guardian_name : Option String := none
  guardian_phone_number : Option String := none
  guardian_relationship : Option String := none
  staff_id : Option String := none
  designation : Option String := none
  security_id : Option String := none
deriving Repr, DecidableEq

/-- Embeds `UserCreate.validate_based_on_user_type` (routers/auth.py lines
152-169): the role-required fields must be present. -/
def validate_based_on_user_type (d : UserCreate) : Bool :=
  match d.user_type with
  | "student" =>
      d.matriculation_number.isSome && d.course_of_study.isSome &&
      d.guardian_name.isSome && d.guardian_phone_number.isSome &&
      d.guardian_relationship.isSome
  | "staff" => d.staff_id.isSome && d.designation.isSome
  | "security_operative" => d.security_id.isSome && d.designation.isSome
  | _ => true

/-- Embeds `ACCESS_TOKEN_EXPIRE_MINUTES = 30` (constants.py). -/
def ACCESS_TOKEN_EXPIRE_MINUTES : Int := 30

/-- Embeds `create_access_token` (routers/auth.py lines 49-58): payload with
subject, issue time `now` and expiry `now` plus the fixed TTL, signed
with the opaque HMAC `sign`. -/
def create_access_token (sign : TokenPayload → String) (sub : String)
    (now : Int) : Jwt :=
  let payload : TokenPayload :=
    { sub := some sub, iat := now,
      exp := now + ACCESS_TOKEN_EXPIRE_MINUTES * 60 }
  { payload := payload, sig := sign payload }

/-- Embeds `authenticate_user` (routers/auth.py lines 288-307): validate the
email shape, find the user by email, verify the password against the
stored hash. -/
def authenticate_user (emailOk : String → Bool)
    (verify : String → String → Bool) (users : List User)
    (email password : String) : Option User :=
  if !(emailOk email) then none
  else
    match users.find? (fun u => u.email == email) with
    | none => none
    | some user =>
      if !(verify password user.hashed_password) then none
      else some user

/-- Embeds `login` (routers/auth.py lines 310-334): authenticate, then issue a
token for the email of the authenticated user. -/
def login (emailOk : String → Bool) (verify : String → String → Bool)
    (sign : TokenPayload → String) (users : List User)
    (username password : String) (now : Int) : Except ApiError Jwt :=
  match authenticate_user emailOk verify users username password with
  | none => .error (.unauthorized ("Incorrect email or password"))
  | some user => .ok (create_access_token sign user.email now)

/-- Autoincrement key for the user table. -/
def next_user_id (users : List User) : Nat :=
  (users.map (fun u => u.id)).foldr max 0 + 1

/-- Autoincrement key for the guardian table. -/
def next_guardian_id (gs : List Guardian) : Nat :=
  (gs.map (fun g => g.id)).foldr max 0 + 1

/-- Autoincrement key for the student table. -/
def next_student_id (ss : List Student) : Nat :=
  (ss.map (fun s => s.id)).foldr max 0 + 1

/-- Autoincrement key for the staff table. -/
def next_staff_id (ss : List Staff) : Nat :=
  (ss.map (fun s => s.id)).foldr max 0 + 1

/-- Autoincrement key for the security-operative table. -/
def next_security_operative_id (ss : List SecurityOperative) : Nat :=
  (ss.map (fun s => s.id)).foldr max 0 + 1

/-- Embeds `signup` (routers/auth.py lines 350-455): parse the user type,
insert the `User` row, create the role profile (plus guardian for a
student), and auto-login.  Failure notes mirror the source: an unknown
user type raises `KeyError` from `cls[name.upper()]` which the
`except ValueError` does not catch; a duplicate email violates the
unique constraint; a missing guardian field fails inside the try-block
(caught, compensating delete of the user, 400); a missing student,
staff or security profile field only fails at the commit placed after
the try-block (uncaught); the `case _` (admin) branch deletes the new
user and fails 400. -/
def signup (hash : String → String) (sign : TokenPayload → String)
    (st : DBState) (d : UserCreate) (now : Int) :
    Except ApiError (DBState × Jwt) :=
  match UserTypeEnum.from_safe_name d.user_type with
  | none => .error (.serverError ("KeyError"))
  | some user_type =>
    if st.users.any (fun u => u.email == d.email) then
      .error (.serverError ("IntegrityError"))
    else
      let user : User :=
        { id := next_user_id st.users, first_name := d.first_name,
          last_name := d.last_name, email := d.email,
          phone_number := d.phone_number,
          hashed_password := hash d.password,
          is_active := d.is_active, is_verified := d.is_verified,
          user_type_id := user_type.value, time_joined := now }
      let users1 := st.users ++ [user]
      match user_type with
      | .STUDENT =>
        match d.guardian_name, d.guardian_phone_number with
        | some gname, some gphone =>
          let guardian : Guardian :=
            { id := next_guardian_id st.guardians, name := gname,
              phone_number := gphone }
          match d.matriculation_number, d.course_of_study,
              d.guardian_relationship with
          | some matric, some course, some grel =>
            let profile : Student :=
              { id := next_student_id st.students, user_id := user.id,
                matriculation_number := matric,
                course_of_study := course,
                guardian_id := guardian.id,
                guardian_relationship := grel }
            .ok ({ st with
                    users := users1,
                    guardians := st.guardians ++ [guardian],
                    students := st.students ++ [profile] },
                 create_access_token sign user.email now)
          | _, _, _ => .error (.serverError ("IntegrityError"))
        | _, _ => .error (.badRequest ("Error during profile creation."))
      | .STAFF =>
        match d.staff_id, d.designation with
        | some sid, some desig =>
          let profile : Staff :=
            { id := next_staff_id st.staffs, user_id := user.id,
              staff_id := sid, designation := desig }
          .ok ({ st with
                  users := users1,
                  staffs := st.staffs ++ [profile] },
               create_access_token sign user.email now)
        | _, _ => .error (.serverError ("IntegrityError"))
      | .SECURITY_OPERATIVE =>
        match d.security_id, d.designation with
        | some sid, some desig =>
          let profile : SecurityOperative :=
            { id := next_security_operative_id st.security_operatives,
              user_id := user.id, security_id := sid,
              designation := desig }
          .ok ({ st with
                  users := users1,
                  security_operatives :=
                    st.security_operatives ++ [profile] },
               create_access_token sign user.email now)
        | _, _ => .error (.serverError ("IntegrityError"))
      | .ADMIN =>
        .error (.badRequest ("Unsupported user type for profile creation."))

/-- After appending a new user with a fresh email, login with that
email and the original password succeeds, and the issued token resolves
back to that user. -/
theorem login_and_resolve_of_append (emailOk : String → Bool)
    (verify : String → String → Bool) (sign : TokenPayload → String)
    (ledger : List RevokedToken) (users : List User) (user : User)
    (p : String) (t2 : Int)
    (hv : verify p user.hashed_password = true)
    (hfr : ∀ u ∈ users, u.email ≠ user.email)
    (he : emailOk user.email = true)
    (hj : user.time_joined ≤ t2)
    (hnrev : is_jwt_revoked ledger (create_access_token sign user.email t2)
      = false) :
    login emailOk verify sign (users ++ [user]) user.email p t2
      = .ok (create_access_token sign user.email t2) ∧
    get_current_user ledger (users ++ [user])
      (create_access_token sign user.email t2) = .ok user := by
  have hfind : (users ++ [user]).find? (fun u2 => u2.email == user.email)
      = some user := by
    rw [List.find?_append]
    have h1 : users.find? (fun u2 => u2.email == user.email) = none := by
      rw [List.find?_eq_none]
      intro x hx hxe
      exact hfr x hx (by simpa using hxe)
    rw [h1, List.find?_cons_of_pos _ (by simp)]
    rfl
  constructor
  · simp [login, authenticate_user, he, hfind, hv]
  · have hsub2 : (create_access_token sign user.email t2).payload.sub
        = some user.email := rfl
    have hiat2 : (create_access_token sign user.email t2).payload.iat
        = t2 := rfl
    simp only [get_current_user, hnrev, Bool.false_eq_true, if_false,
      hsub2, hiat2, hfind]
    rw [if_neg (by omega)]

/-- C7: for a valid signup payload (role one of student, staff or
security operative with its required profile fields supplied) whose
email is new, signup succeeds and creates one user; a later login with
the same email and password succeeds, and its token resolves to exactly
the user signup created. -/
theorem c7_signup_login_roundtrip (hash : String → String)
    (verify : String → String → Bool) (sign : TokenPayload → String)
    (emailOk : String → Bool) (st : DBState) (d : UserCreate)
    (ledger : List RevokedToken) (t1 t2 : Int)
    (hverify : ∀ p, verify p (hash p) = true)
    (hrole : d.user_type = "student" ∨ d.user_type = "staff" ∨
      d.user_type = "security_operative")
    (hvalid : validate_based_on_user_type d = true)
    (hfresh : ∀ u ∈ st.users, u.email ≠ d.email)
    (hemail : emailOk d.email = true)
    (ht : t1 ≤ t2)
    (hnrev : is_jwt_revoked ledger (create_access_token sign d.email t2)
      = false) :
    ∃ st2 tok0 user,
      signup hash sign st d t1 = .ok (st2, tok0) ∧
      st2.users = st.users ++ [user] ∧
      user.email = d.email ∧
      login emailOk verify sign st2.users d.email d.password t2
        = .ok (create_access_token sign d.email t2) ∧
      get_current_user ledger st2.users
          (create_access_token sign d.email t2) = .ok user := by
  have hany : st.users.any (fun u => u.email == d.email) = false := by
    cases hA : st.users.any (fun u => u.email == d.email)
    · rfl
    · obtain ⟨x, hx, hxe⟩ := List.any_eq_true.mp hA
      exact absurd (by simpa using hxe) (hfresh x hx)
  rcases hrole with hrole | hrole | hrole
  · have hv := hvalid
    simp only [validate_based_on_user_type, hrole, Bool.and_eq_true] at hv
    obtain ⟨⟨⟨⟨h1, h2⟩, h3⟩, h4⟩, h5⟩ := hv
    rcases Option.isSome_iff_exists.mp h1 with ⟨matric, hm⟩
    rcases Option.isSome_iff_exists.mp h2 with ⟨course, hc⟩
    rcases Option.isSome_iff_exists.mp h3 with ⟨gname, hgn⟩
    rcases Option.isSome_iff_exists.mp h4 with ⟨gphone, hgp⟩
    rcases Option.isSome_iff_exists.mp h5 with ⟨grel, hgr⟩
    have hsig : signup hash sign st d t1 = .ok
        ({ st with
            users := st.users ++
              [{ id := next_user_id st.users, first_name := d.first_name,
                 last_name := d.last_name, email := d.email,
                 phone_number := d.phone_number,
                 hashed_password := hash d.password,
                 is_active := d.is_active, is_verified := d.is_verified,
                 user_type_id := UserTypeEnum.STUDENT.value,
                 time_joined := t1 }],
            guardians := st.guardians ++
              [{ id := next_guardian_id st.guardians, name := gname,
                 phone_number := gphone }],
            students := st.students ++
              [{ id := next_student_id st.students,
                 user_id := next_user_id st.users,
                 matriculation_number := matric,
                 course_of_study := course,
                 guardian_id := next_guardian_id st.guardians,
                 guardian_relationship := grel }] },
          create_access_token sign d.email t1) := by
      simp only [signup, hrole, UserTypeEnum.from_safe_name, hany,
        Bool.false_eq_true, if_false, hgn, hgp, hm, hc, hgr]
    refine ⟨_, _, _, hsig, rfl, rfl, ?_, ?_⟩
    · exact (login_and_resolve_of_append emailOk verify sign ledger
        st.users _ d.password t2 (hverify d.password) hfresh hemail ht
        hnrev).1
    · exact (login_and_resolve_of_append emailOk verify sign ledger
        st.users _ d.password t2 (hverify d.password) hfresh hemail ht
        hnrev).2
  · have hv := hvalid
    simp only [validate_based_on_user_type, hrole, Bool.and_eq_true] at hv
    obtain ⟨h1, h2⟩ := hv
    rcases Option.isSome_iff_exists.mp h1 with ⟨sid, hs⟩
    rcases Option.isSome_iff_exists.mp h2 with ⟨desig, hd⟩
    have hsig : signup hash sign st d t1 = .ok
        ({ st with
            users := st.users ++
              [{ id := next_user_id st.users, first_name := d.first_name,
                 last_name := d.last_name, email := d.email,
                 phone_number := d.phone_number,
                 hashed_password := hash d.password,
                 is_active := d.is_active, is_verified := d.is_verified,
                 user_type_id := UserTypeEnum.STAFF.value,
                 time_joined := t1 }],
            staffs := st.staffs ++
              [{ id := next_staff_id st.staffs,
                 user_id := next_user_id st.users,
                 staff_id := sid, designation := desig }] },
          create_access_token sign d.email t1) := by
      simp only [signup, hrole, UserTypeEnum.from_safe_name, hany,
        Bool.false_eq_true, if_false, hs, hd]
    refine ⟨_, _, _, hsig, rfl, rfl, ?_, ?_⟩
    · exact (login_and_resolve_of_append emailOk verify sign ledger
        st.users _ d.password t2 (hverify d.password) hfresh hemail ht
        hnrev).1
    · exact (login_and_resolve_of_append emailOk verify sign ledger
        st.users _ d.password t2 (hverify d.password) hfresh hemail ht
        hnrev).2
  · have hv := hvalid
    simp only [validate_based_on_user_type, hrole, Bool.and_eq_true] at hv
    obtain ⟨h1, h2⟩ := hv
    rcases Option.isSome_iff_exists.mp h1 with ⟨sid, hs⟩
    rcases Option.isSome_iff_exists.mp h2 with ⟨desig, hd⟩
    have hsig : signup hash sign st d t1 = .ok
        ({ st with
            users := st.users ++
              [{ id := next_user_id st.users, first_name := d.first_name,
                 last_name := d.last_name, email := d.email,
                 phone_number := d.phone_number,
                 hashed_password := hash d.password,
                 is_active := d.is_active, is_verified := d.is_verified,
                 user_type_id := UserTypeEnum.SECURITY_OPERATIVE.value,
                 time_joined := t1 }],
            security_operatives := st.security_operatives ++
              [{ id := next_security_operative_id st.security_operatives,
                 user_id := next_user_id st.users,
                 security_id := sid, designation := desig }] },
          create_access_token sign d.email t1) := by
      simp only [signup, hrole, UserTypeEnum.from_safe_name, hany,
        Bool.false_eq_true, if_false, hs, hd]
    refine ⟨_, _, _, hsig, rfl, rfl, ?_, ?_⟩
    · exact (login_and_resolve_of_append emailOk verify sign ledger
        st.users _ d.password t2 (hverify d.password) hfresh hemail ht
        hnrev).1
    · exact (login_and_resolve_of_append emailOk verify sign ledger
        st.users _ d.password t2 (hverify d.password) hfresh hemail ht
        hnrev).2

/-- A concrete hash function for instances (the identity, standing in
for the opaque salted hash). -/
def hashI : String → String := fun p => p

/-- A concrete verifier matching `hashI`. -/
def verifyI : String → String → Bool := fun p h => p == h

/-- A concrete signer for instances. -/
def signI : TokenPayload → String := fun _ => "sigI"

/-- A concrete email validator for instances. -/
def emailOkI : String → Bool := fun _ => true

/-- A concrete valid student signup payload. -/
def dStudent : UserCreate :=
  { user_type := "student", email := "ada@example.edu", password := "pw",
    first_name := "Ada", last_name := "Obi", phone_number := "1",
    matriculation_number := some ("2024/12345"),
    course_of_study := some ("CS"),
    guardian_name := some ("G"),
    guardian_phone_number := some ("2"),
    guardian_relationship := some ("Mother") }

/-- Witness for C7: the concrete student payload signed up at time 0 on
an empty store, then logged in at time 5. -/
theorem c7_signup_login_roundtrip_witness :
    ∃ st2 tok0 user,
      signup hashI signI {} dStudent 0 = .ok (st2, tok0) ∧
      st2.users = ({} : DBState).users ++ [user] ∧
      user.email = dStudent.email ∧
      login emailOkI verifyI signI st2.users dStudent.email
          dStudent.password 5
        = .ok (create_access_token signI dStudent.email 5) ∧
      get_current_user [] st2.users
          (create_access_token signI dStudent.email 5) = .ok user :=
  c7_signup_login_roundtrip hashI verifyI signI emailOkI {} dStudent [] 0 5
    (fun p => by simp [hashI, verifyI]) (Or.inl rfl) (by decide)
    (by simp) rfl (by decide) rfl
